import Mathlib

/-!
Shallow embedding of the agent execution contract implemented in
`src/realms/index.ts` (the `GovernanceAgent` class), the only concrete
agent implemented inside this repository.

Modelling conventions:
* JavaScript strings are Lean `String`s; the string primitives the code
  uses (`toLowerCase`, `includes`, `split`, `trim`) are defined below on
  the underlying `List Char`.  `toLowerCase` is modelled by
  `Char.toLower`, which agrees with JavaScript on ASCII (every keyword
  and literal in the source is ASCII).
* `Date.now()` / `new Date().toISOString()` are modelled by an explicit
  `now : Nat` parameter (milliseconds since the epoch); the ISO
  formatting of a timestamp is abstracted to the numeric value itself.
* The `async` wrappers are irrelevant to the computed values (the
  methods never await anything), so every method is a pure function.
-/

namespace MCP

/-- `isPrefixL p s` : does the character list `p` occur at the start of `s`? -/
def isPrefixL : List Char → List Char → Bool
  | [], _ => true
  | _ :: _, [] => false
  | p :: ps, c :: cs => p == c && isPrefixL ps cs

/-- `containsL s pat` : does `pat` occur as a contiguous substring of `s`?
This is JavaScript `s.includes(pat)`. -/
def containsL : List Char → List Char → Bool
  | [], pat => pat.isEmpty
  | c :: cs, pat => isPrefixL pat (c :: cs) || containsL cs pat

/-- JavaScript `s.toLowerCase().includes(pat)` for an ASCII-lowercase
pattern `pat`, as used by the classifier in `processInstruction`. -/
def containsCI (s pat : String) : Bool :=
  containsL (s.data.map Char.toLower) pat.data

/-- JavaScript `s.includes(pat)` (case-sensitive), as used by the
`titled` guard in `createProposal`. -/
def containsStr (s pat : String) : Bool :=
  containsL s.data pat.data

/-- Worker for `splitL`: scans `s` left to right, cutting at each
non-overlapping occurrence of `pat`; `acc` holds the (reversed) characters
of the current chunk.  The fuel is only a termination device: each step
consumes at least one character of `s`, so `s.length` fuel suffices. -/
def splitGo (pat : List Char) : Nat → List Char → List Char → List (List Char)
  | 0, rest, acc => [acc.reverse ++ rest]
  | fuel + 1, s, acc =>
    match s with
    | [] => [acc.reverse]
    | c :: cs =>
      if pat ≠ [] ∧ isPrefixL pat (c :: cs) then
        acc.reverse :: splitGo pat fuel (List.drop (pat.length - 1) cs) []
      else
        splitGo pat fuel cs (c :: acc)

/-- JavaScript `s.split(pat)` for a non-empty string separator `pat`. -/
def splitL (s pat : List Char) : List (List Char) :=
  splitGo pat s.length s []

/-- JavaScript `s.trim()`: strip leading and trailing whitespace. -/
def trimL (s : List Char) : List Char :=
  ((s.dropWhile Char.isWhitespace).reverse.dropWhile Char.isWhitespace).reverse

/-- The `error` field of an `AgentResponse` (`{ code, message }`). -/
structure ErrorInfo where
  code : Nat
  message : String
deriving DecidableEq

/-- One entry of the treasury snapshot's `tokens` array. -/
structure TokenHolding where
  mint : String
  symbol : String
  amount : String
deriving DecidableEq

/-- The action-specific `data` payloads produced by the three handlers.
The JavaScript objects carry a `type` discriminator string
(`'proposal'` / `'vote'` / `'treasury'`), modelled by the constructor;
timestamp fields hold the epoch-milliseconds value. -/
inductive Payload where
  | proposal (title : String) (createdAt : Nat) (proposalAddress : String)
      (votingEndsAt : Nat)
  | vote (proposalId : String) (vote : String) (votingPower : String)
      (timestamp : Nat)
  | treasury (balance : String) (tokens : List TokenHolding)
      (governanceAddress : String) (lastActivity : Nat)
deriving DecidableEq

/-- The `type` discriminator string of a payload. -/
def Payload.type : Payload → String
  | .proposal _ _ _ _ => "proposal"
  | .vote _ _ _ _ => "vote"
  | .treasury _ _ _ _ => "treasury"

/-- The `title` field of a payload (present only on proposal payloads). -/
def Payload.title? : Payload → Option String
  | .proposal t _ _ _ => some t
  | _ => none

/-- The `vote` field of a payload (present only on vote payloads). -/
def Payload.voteChoice? : Payload → Option String
  | .vote _ v _ _ => some v
  | _ => none

/-- The uniform response envelope (`AgentResponse` in the source):
`{ success, message, data?, error?, transactionId? }`. -/
structure AgentResponse where
  success : Bool
  message : String
  data : Option Payload
  error : Option ErrorInfo
  transactionId : Option String
deriving DecidableEq

/-- The payload `type` tag of an envelope, when a payload is present. -/
def AgentResponse.payloadType (r : AgentResponse) : Option String :=
  r.data.map Payload.type

/-- Construction context of a `GovernanceAgent`
(`AgentContext & { daoName, realmAddress }`); the connection handle is
opaque and never inspected, so it is omitted. -/
structure GovernanceAgentContext where
  agentId : String
  daoName : String
  realmAddress : String

namespace GovernanceAgent

/-- `getName()`. -/
def getName (ctx : GovernanceAgentContext) : String :=
  ctx.daoName ++ " Governance Agent"

/-- `getDescription()`. -/
def getDescription (ctx : GovernanceAgentContext) : String :=
  "Agent for interacting with " ++ ctx.daoName ++ " DAO via Realms governance"

/-- `getCapabilities()`. -/
def getCapabilities : List String :=
  [ "Proposal Creation",
    "Vote Casting",
    "DAO Treasury Management",
    "Governance Analytics",
    "Member Management" ]

/-- `executeTransaction(transaction)` — the simulated Signer; the
argument has TypeScript type `any` and is ignored. -/
def executeTransaction {α : Type} (transaction : α) : String :=
  "simulated-transaction-signature"

/-- `getState()`. -/
def getState (ctx : GovernanceAgentContext) : List (String × String) :=
  [ ("daoName", ctx.daoName),
    ("realmAddress", ctx.realmAddress),
    ("agentId", ctx.agentId) ]

/-- Title extraction in `createProposal`:
`instruction.includes('titled') ?
   instruction.split('titled')[1].trim().split('"')[1] || 'Untitled Proposal'
 : 'Untitled Proposal'`.
JavaScript `x[1]` on a too-short array is `undefined` (here `none`), and
`undefined || d` as well as `'' || d` evaluate to `d`. -/
def extractTitle (instruction : String) : String :=
  if containsStr instruction "titled" then
    match (splitL (trimL ((splitL instruction.data "titled".data).getD 1 []))
        ['\"'])[1]? with
    | some t => if t.isEmpty then "Untitled Proposal" else String.mk t
    | none => "Untitled Proposal"
  else
    "Untitled Proposal"

/-- `createProposal(instruction)` (private helper). -/
def createProposal (instruction : String) (now : Nat) : AgentResponse :=
  let title := extractTitle instruction
  { success := true
    message := "Created new governance proposal: \"" ++ title ++ "\""
    data := some (Payload.proposal title now
      "Gx7dJvn9PD9G6uUPsVQCjrCgPy9ogHZ7GzZm5HVF37EL"
      (now + 3 * 24 * 60 * 60 * 1000))
    error := none
    transactionId := none }

/-- `castVote(instruction)` (private helper). -/
def castVote (instruction : String) (now : Nat) : AgentResponse :=
  let voteFor := !(containsCI instruction "against")
  { success := true
    message := "Vote cast " ++ (if voteFor then "for" else "against") ++ " proposal"
    data := some (Payload.vote "Gx7dJvn9PD9G6uUPsVQCjrCgPy9ogHZ7GzZm5HVF37EL"
      (if voteFor then "for" else "against") "1000" now)
    error := none
    transactionId := none }

/-- `treasuryAction(instruction)` (private helper); the instruction text
is received but not consulted. -/
def treasuryAction (instruction : String) (now : Nat) : AgentResponse :=
  { success := true
    message := "Treasury information retrieved"
    data := some (Payload.treasury "15000 SOL"
      [ { mint := "EPjFWdd5AufqSSqeM2qN1xzybapC8G4wEGGkZwyTDt1v",
          symbol := "USDC", amount := "25000" },
        { mint := "mSoLzYCxHdYgdzU16g5QSh3i5K3z3KZK7ytfqcJm7So",
          symbol := "mSOL", amount := "150" } ]
      "G5trKGedmTdqpn6wqfX3KdPnBXriazkWuSEBrUEFQ1qJ" now)
    error := none
    transactionId := none }

/-- `processInstruction(instruction)` — the sole entry point: the ordered
if/else keyword chain of the source. -/
def processInstruction (instruction : String) (now : Nat) : AgentResponse :=
  if containsCI instruction "create proposal" then
    createProposal instruction now
  else if containsCI instruction "vote" || containsCI instruction "cast" then
    castVote instruction now
  else if containsCI instruction "treasury" then
    treasuryAction instruction now
  else
    { success := false
      message := "Unsupported governance instruction"
      data := none
      error := some { code := 400, message := "Could not parse governance instruction" }
      transactionId := none }

/-- Names for the four branches of `processInstruction`. -/
inductive Handler where
  | createProposal
  | castVote
  | treasuryAction
  | unsupported
deriving DecidableEq

/-- The classifier implicit in `processInstruction`: which branch an
instruction is routed to. -/
def classify (instruction : String) : Handler :=
  if containsCI instruction "create proposal" then .createProposal
  else if containsCI instruction "vote" || containsCI instruction "cast" then .castVote
  else if containsCI instruction "treasury" then .treasuryAction
  else .unsupported

/-- The envelope returned by the unsupported-instruction branch. -/
def unsupportedResponse : AgentResponse :=
  { success := false
    message := "Unsupported governance instruction"
    data := none
    error := some { code := 400, message := "Could not parse governance instruction" }
    transactionId := none }

end GovernanceAgent

/-! ## Helper lemmas -/

namespace GovernanceAgent

/-- `processInstruction` dispatches exactly along the branch named by
`classify`. -/
theorem processInstruction_eq_dispatch (s : String) (now : Nat) :
    processInstruction s now =
      match classify s with
      | .createProposal => createProposal s now
      | .castVote => castVote s now
      | .treasuryAction => treasuryAction s now
      | .unsupported => unsupportedResponse := by
  unfold processInstruction classify unsupportedResponse
  split_ifs <;> rfl

end GovernanceAgent

/-- When the separator never occurs in the unscanned remainder, the split
worker produces a single chunk: the pending accumulator followed by that
remainder. -/
theorem splitGo_of_not_contains (pat : List Char) (fuel : Nat) :
    ∀ (s acc : List Char), containsL s pat = false →
      splitGo pat fuel s acc = [acc.reverse ++ s] := by
  induction fuel with
  | zero => intro s acc _; rfl
  | succ fuel ih =>
    intro s acc h
    cases s with
    | nil => simp [splitGo]
    | cons c cs =>
      rw [containsL, Bool.or_eq_false_iff] at h
      rw [splitGo]
      rw [if_neg (fun hc => by simp [h.1] at hc)]
      rw [ih cs (c :: acc) h.2]
      simp

/-- JavaScript `s.split(pat)` yields the single chunk `[s]` when `pat`
does not occur in `s`. -/
theorem splitL_singleton_of_not_contains (s pat : List Char)
    (h : containsL s pat = false) : splitL s pat = [s] := by
  unfold splitL
  rw [splitGo_of_not_contains pat s.length s [] h]
  rfl

end MCP

/-! ## Claim theorems -/

namespace MCP

open GovernanceAgent

/-- Following the claim's words ("a handler for that capability"): the
classifier branch that implements each advertised capability, when the
variant has one.  Spec §4.1 requires the capability list to be
"consistent with what the Classifier can route to for this variant"; the
classifier has branches only for proposal creation, vote casting and
treasury access, so the last two advertised capabilities map to no
handler. -/
def capabilityHandler : String → Option Handler
  | "Proposal Creation" => some .createProposal
  | "Vote Casting" => some .castVote
  | "DAO Treasury Management" => some .treasuryAction
  | _ => none

/-- C1 (counterexample): the instruction `"create proposal"` is routed to
the ledger-mutating create-proposal handler, yet the returned envelope's
`transactionId` is absent — the handler never calls `executeTransaction`,
contradicting the claim that mutating handlers obtain a non-empty
`transactionId` from the Signer. -/
theorem c1_mutating_handler_no_transactionId :
    classify "create proposal" = Handler.createProposal ∧
    (processInstruction "create proposal" 0).transactionId = none := by
  decide

/-- C1 (amended): no handler of `GovernanceAgent` ever invokes the
Signer; for every instruction — whether routed to the create-proposal,
cast-vote, or treasury handler, or to the unsupported branch — the
returned envelope's `transactionId` is absent. -/
theorem c1_transactionId_always_absent (s : String) (now : Nat) :
    (processInstruction s now).transactionId = none := by
  unfold processInstruction
  split_ifs <;> rfl

/-- C2 (counterexample): `"hello world"` contains none of the configured
keywords, and the resulting envelope has `success = false` and
`error.code = 400` as claimed, but its error message is
`"Could not parse governance instruction"`, not the claimed
`"Could not parse instruction"`. -/
theorem c2_error_message_differs :
    containsCI "hello world" "create proposal" = false ∧
    containsCI "hello world" "vote" = false ∧
    containsCI "hello world" "cast" = false ∧
    containsCI "hello world" "treasury" = false ∧
    (processInstruction "hello world" 0).error.map ErrorInfo.message =
      some "Could not parse governance instruction" ∧
    (processInstruction "hello world" 0).error.map ErrorInfo.message ≠
      some "Could not parse instruction" := by
  decide

/-- C2 (amended): for every instruction containing none of the configured
keywords (`'create proposal'`, `'vote'`, `'cast'`, `'treasury'`,
case-insensitively), `processInstruction` returns the fixed failure
envelope with `success = false`, `error.code = 400` and error message
`"Could not parse governance instruction"`; no exception is involved. -/
theorem c2_classification_failure (s : String) (now : Nat)
    (h1 : containsCI s "create proposal" = false)
    (h2 : containsCI s "vote" = false)
    (h3 : containsCI s "cast" = false)
    (h4 : containsCI s "treasury" = false) :
    processInstruction s now = unsupportedResponse := by
  simp [processInstruction, unsupportedResponse, h1, h2, h3, h4]

/-- C2 (witness): the amended theorem applied to the concrete
instruction `"hello world"`. -/
theorem c2_classification_failure_witness :
    containsCI "hello world" "create proposal" = false ∧
    containsCI "hello world" "vote" = false ∧
    containsCI "hello world" "cast" = false ∧
    containsCI "hello world" "treasury" = false ∧
    processInstruction "hello world" 0 = unsupportedResponse :=
  ⟨by decide, by decide, by decide, by decide,
   c2_classification_failure "hello world" 0
     (by decide) (by decide) (by decide) (by decide)⟩

/-- C3 (code bug): the spec's round-trip instruction
`Create a new proposal titled "Fund Grants"` never reaches the proposal
handler — its lowercase form contains `"create a new proposal"` but not
the required substring `"create proposal"` (nor `vote`/`cast`/
`treasury`) — so the call returns the unsupported-instruction failure
envelope with no payload at all, instead of a proposal titled
`Fund Grants`. -/
theorem c3_roundtrip_fails :
    processInstruction "Create a new proposal titled \"Fund Grants\"" 0 =
      unsupportedResponse ∧
    (processInstruction "Create a new proposal titled \"Fund Grants\"" 0).data = none := by
  decide

/-- C4 (confirmed): every envelope produced by `processInstruction`
satisfies the mutual-exclusion invariant: `success = true` iff the
`error` field is absent, and `success = false` iff the `data` field is
absent. -/
theorem c4_envelope_invariant (s : String) (now : Nat) :
    ((processInstruction s now).success = true ↔
      (processInstruction s now).error = none) ∧
    ((processInstruction s now).success = false ↔
      (processInstruction s now).data = none) := by
  unfold processInstruction
  split_ifs <;> simp [createProposal, castVote, treasuryAction]

/-- C5 (counterexample): `"Governance Analytics"` is advertised by
`getCapabilities`, but the classifier has no branch implementing it, so
no instruction whatsoever is routed to a handler for that capability. -/
theorem c5_unroutable_capability :
    "Governance Analytics" ∈ getCapabilities ∧
    ¬ ∃ s : String, capabilityHandler "Governance Analytics" = some (classify s) ∧
        classify s ≠ Handler.unsupported :=
  ⟨by decide, fun ⟨_, hs, _⟩ => by simp [capabilityHandler] at hs⟩

/-- C5 (amended): an advertised capability has an instruction routed to
a handler implementing it exactly when it is one of the first three
(`Proposal Creation`, `Vote Casting`, `DAO Treasury Management`); the
advertised `Governance Analytics` and `Member Management` capabilities
have no handler and no instruction routes to one. -/
theorem c5_capability_routing (c : String) (hc : c ∈ getCapabilities) :
    (∃ s : String, capabilityHandler c = some (classify s) ∧
        classify s ≠ Handler.unsupported) ↔
      (c = "Proposal Creation" ∨ c = "Vote Casting" ∨
        c = "DAO Treasury Management") := by
  simp only [getCapabilities, List.mem_cons, List.not_mem_nil, or_false] at hc
  rcases hc with rfl | rfl | rfl | rfl | rfl
  · exact iff_of_true ⟨"create proposal", by decide, by decide⟩ (Or.inl rfl)
  · exact iff_of_true ⟨"vote", by decide, by decide⟩ (Or.inr (Or.inl rfl))
  · exact iff_of_true ⟨"treasury", by decide, by decide⟩ (Or.inr (Or.inr rfl))
  · refine iff_of_false ?_ (by decide)
    rintro ⟨s, hs, -⟩
    simp [capabilityHandler] at hs
  · refine iff_of_false ?_ (by decide)
    rintro ⟨s, hs, -⟩
    simp [capabilityHandler] at hs

/-- C5 (witness): the amended theorem applied to the advertised
capability `"Proposal Creation"`. -/
theorem c5_capability_routing_witness :
    (∃ s : String, capabilityHandler "Proposal Creation" = some (classify s) ∧
        classify s ≠ Handler.unsupported) ↔
      (("Proposal Creation" : String) = "Proposal Creation" ∨
        ("Proposal Creation" : String) = "Vote Casting" ∨
        ("Proposal Creation" : String) = "DAO Treasury Management") :=
  c5_capability_routing "Proposal Creation" (by decide)

/-- C6 (counterexample): `"create proposal vote treasury"` contains both
`"vote"` and `"treasury"`, yet it is routed to the create-proposal
handler (payload type `"proposal"`, not `"vote"`), because the
create-proposal rule precedes the vote rule in the ordered chain. -/
theorem c6_overlap_counterexample :
    containsCI "create proposal vote treasury" "vote" = true ∧
    containsCI "create proposal vote treasury" "treasury" = true ∧
    classify "create proposal vote treasury" = Handler.createProposal ∧
    (processInstruction "create proposal vote treasury" 0).payloadType =
      some "proposal" ∧
    (processInstruction "create proposal vote treasury" 0).payloadType ≠
      some "vote" := by
  decide

/-- C6 (amended): for every instruction containing (case-insensitively)
both `"vote"` and `"treasury"` but not `"create proposal"`, the vote rule
— declared before the treasury rule — wins: the instruction is routed to
the vote handler and the payload type tag is `"vote"`. -/
theorem c6_vote_before_treasury (s : String) (now : Nat)
    (hv : containsCI s "vote" = true)
    (ht : containsCI s "treasury" = true)
    (hcp : containsCI s "create proposal" = false) :
    classify s = Handler.castVote ∧
    (processInstruction s now).payloadType = some "vote" := by
  refine ⟨by simp [classify, hcp, hv], ?_⟩
  simp [processInstruction, hcp, hv, castVote, AgentResponse.payloadType,
    Payload.type]

/-- C6 (witness): the amended theorem applied to the concrete
instruction `"vote treasury"`. -/
theorem c6_vote_before_treasury_witness :
    containsCI "vote treasury" "vote" = true ∧
    containsCI "vote treasury" "treasury" = true ∧
    containsCI "vote treasury" "create proposal" = false ∧
    classify "vote treasury" = Handler.castVote ∧
    (processInstruction "vote treasury" 0).payloadType = some "vote" := by
  refine ⟨by decide, by decide, by decide, ?_, ?_⟩
  · exact (c6_vote_before_treasury "vote treasury" 0
      (by decide) (by decide) (by decide)).1
  · exact (c6_vote_before_treasury "vote treasury" 0
      (by decide) (by decide) (by decide)).2

/-- C7 (confirmed): for every instruction routed to the vote handler, the
payload's `vote` field is `"against"` when the instruction contains
(case-insensitively) the substring `"against"`, and `"for"` otherwise. -/
theorem c7_vote_direction (s : String) (now : Nat)
    (h : classify s = Handler.castVote) :
    (containsCI s "against" = true →
      (processInstruction s now).data.bind Payload.voteChoice? = some "against") ∧
    (containsCI s "against" = false →
      (processInstruction s now).data.bind Payload.voteChoice? = some "for") := by
  rw [processInstruction_eq_dispatch, h]
  cases hag : containsCI s "against" <;>
    simp [hag, castVote, Payload.voteChoice?]

/-- C7 (witness): the theorem applied to the concrete instructions
`"Vote against proposal x"` and `"Vote for proposal x"`. -/
theorem c7_vote_direction_witness :
    ((processInstruction "Vote against proposal x" 0).data.bind
        Payload.voteChoice? = some "against") ∧
    ((processInstruction "Vote for proposal x" 0).data.bind
        Payload.voteChoice? = some "for") :=
  ⟨(c7_vote_direction "Vote against proposal x" 0 (by decide)).1 (by decide),
   (c7_vote_direction "Vote for proposal x" 0 (by decide)).2 (by decide)⟩

/-- C8 (confirmed): `executeTransaction` returns the fixed placeholder
string `"simulated-transaction-signature"` on every input, of any type;
in particular its result never depends on its argument. -/
theorem c8_executeTransaction_constant :
    (∀ (α : Type) (t : α),
        executeTransaction t = "simulated-transaction-signature") ∧
    (∀ (α β : Type) (t : α) (u : β),
        executeTransaction t = executeTransaction u) :=
  ⟨fun _ _ => rfl, fun _ _ _ _ => rfl⟩

/-- C9 (confirmed): classification is deterministic and idempotent: two
calls of `processInstruction` on the same instruction (at possibly
different times, the only varying ambient input) select the same branch,
so the two envelopes agree on the success flag, on the whole error field,
and on the payload's type tag. -/
theorem c9_classification_deterministic (s : String) (n1 n2 : Nat) :
    (processInstruction s n1).success = (processInstruction s n2).success ∧
    (processInstruction s n1).error = (processInstruction s n2).error ∧
    (processInstruction s n1).payloadType = (processInstruction s n2).payloadType := by
  unfold processInstruction
  split_ifs <;>
    simp [createProposal, castVote, treasuryAction, AgentResponse.payloadType,
      Payload.type]

/-- C10 (confirmed): `processInstruction` is total — every call returns a
well-formed envelope (a success envelope or the fixed code-400 failure
envelope), never an exception; and in the edge case of an instruction
routed to the proposal handler whose `titled` marker is followed by no
double-quote character, the out-of-range index is absorbed (`undefined`
in JavaScript, `none` here) and the title falls back to
`"Untitled Proposal"`. -/
theorem c10_total_with_title_fallback (s : String) (now : Nat) :
    ((processInstruction s now).success = true ∨
      (processInstruction s now).error =
        some ⟨400, "Could not parse governance instruction"⟩) ∧
    (containsCI s "create proposal" = true →
      containsStr s "titled" = true →
      containsL (trimL ((splitL s.data "titled".data).getD 1 [])) ['\"'] = false →
      (processInstruction s now).data.bind Payload.title? =
        some "Untitled Proposal") := by
  constructor
  · unfold processInstruction
    split_ifs <;> simp [createProposal, castVote, treasuryAction]
  · intro h1 h2 h3
    have htitle : extractTitle s = "Untitled Proposal" := by
      unfold extractTitle
      rw [if_pos h2, splitL_singleton_of_not_contains _ _ h3]
      rfl
    simp [processInstruction, h1, createProposal, htitle, Payload.title?]

/-- C10 (witness): the theorem applied to the concrete instruction
`"create proposal titled nothing"`, whose `titled` marker is followed by
no double quote. -/
theorem c10_total_with_title_fallback_witness :
    ((processInstruction "create proposal titled nothing" 0).success = true ∨
      (processInstruction "create proposal titled nothing" 0).error =
        some ⟨400, "Could not parse governance instruction"⟩) ∧
    (processInstruction "create proposal titled nothing" 0).data.bind
        Payload.title? = some "Untitled Proposal" :=
  ⟨(c10_total_with_title_fallback "create proposal titled nothing" 0).1,
   (c10_total_with_title_fallback "create proposal titled nothing" 0).2
     (by decide) (by decide) (by decide)⟩

end MCP
